import Mathlib

/-!
Shallow embedding, in Lean 4, of the data-collection and classification core of
the reflectsonar repository (a SonarQube-to-PDF report generator), together with
theorems settling the frozen claims about its specification.

The embedding follows the Python source under src/:
  - src/data/models.py        : the data model (issues, hotspots, rules)
  - src/report/utils.py       : detect_sonarqube_mode, get_severity_order
  - src/report/pdfgen.py      : its own copy of get_severity_order (different MQR table)
  - src/report/issues.py      : get_issues_by_impact_category
  - src/api/pagination.py     : paginate_api_response
  - src/api/client.py         : SonarQubeClient._request retry loop
  - src/api/get_data.py       : get_code_snippet, snippet substitution, get_rules

Network effects are abstracted by passing the server's per-request responses as
an explicit function argument; everything else is translated directly.
-/

/-- An entry of a finding's `impacts` list.  In the source these are JSON
dictionaries with optional keys `softwareQuality` and `severity`
(`impact.get(...)` / `'severity' in impact`), hence both fields are optional. -/
structure Impact where
  softwareQuality : Option String := none
  severity : Option String := none
deriving Repr, DecidableEq

/-- The fields of `SonarQubeIssue` (src/data/models.py) that the collection and
classification logic reads.  `line` is `Optional[int]` in the source; the
`from_dict` constructor leaves `code_snippet` at its default `None`. -/
structure SonarQubeIssue where
  key : String := ""
  component : String := ""
  rule : String := ""
  severity : String := ""
  message : String := ""
  type : String := ""
  line : Option Nat := none
  tags : List String := []
  impacts : List Impact := []
  code_snippet : Option String := none
deriving Repr, DecidableEq

/-- The fields of `SonarQubeHotspot` (src/data/models.py) used by collection. -/
structure SonarQubeHotspot where
  key : String := ""
  component : String := ""
  rule : String := ""
  message : String := ""
  line : Option Nat := none
  code_snippet : Option String := none
deriving Repr, DecidableEq

/-- Python `str.upper()` restricted to its ASCII behaviour: upper-case every
character.  (Defined by a direct map over the characters so that it reduces
inside the kernel.) -/
def pyUpper (s : String) : String := String.mk (s.data.map Char.toUpper)

/-- Python `str.lower()` restricted to its ASCII behaviour. -/
def pyLower (s : String) : String := String.mk (s.data.map Char.toLower)

/-- Python `str.strip()` over ASCII whitespace: drop leading and trailing
whitespace characters. -/
def pyStrip (s : String) : String :=
  String.mk (((s.data.dropWhile Char.isWhitespace).reverse.dropWhile
    Char.isWhitespace).reverse)

/-! ## Mode classifier (detect_sonarqube_mode)

`detect_sonarqube_mode` appears textually identical in src/report/utils.py and
src/report/pdfgen.py; one embedding covers both. -/

/-- Truthiness of `any(issue.impacts for issue in issues)`: a nonempty impact list is truthy. -/
def hasImpacts (issues : List SonarQubeIssue) : Bool :=
  issues.any (fun i => !i.impacts.isEmpty)

/-- The set of severity strings collected by `detect_sonarqube_mode`: each
issue's legacy `severity` upper-cased, plus, when the issue's impact list is
truthy, the upper-cased `severity` of every impact that has one. -/
def observedSeverities (issues : List SonarQubeIssue) : List String :=
  issues.flatMap (fun i =>
    pyUpper i.severity ::
      (if !i.impacts.isEmpty then
        i.impacts.filterMap (fun imp => imp.severity.map pyUpper)
      else []))

def mqr_severities : List String := ["HIGH", "MEDIUM", "LOW"]

def standard_severities : List String := ["BLOCKER", "CRITICAL", "MAJOR", "MINOR", "INFO"]

/-- Embeds `detect_sonarqube_mode` from src/report/utils.py lines 105-133 (and the
identical copy in src/report/pdfgen.py lines 110-138). -/
def detect_sonarqube_mode (issues : List SonarQubeIssue) : String :=
  let has_impacts := hasImpacts issues
  let severities := observedSeverities issues
  if has_impacts && severities.any (fun s => mqr_severities.contains s) then
    "MQR"
  else if severities.any (fun s => standard_severities.contains s) then
    "STANDARD"
  else
    "STANDARD"

/-! ## Severity ranking tables

The repository holds two distinct `get_severity_order` functions: one in
src/report/utils.py (imported by src/report/issues.py) and one in
src/report/pdfgen.py.  Their MQR tables differ. -/

namespace utils

/-- Embeds `get_severity_order` from src/report/utils.py lines 136-154.  The Python
dictionary lookup `severity_map.get(severity.upper(), 99)` is written as a
chain of equality tests on the upper-cased key. -/
def get_severity_order (severity : String) (mode : String) : Nat :=
  if mode == "MQR" then
    if pyUpper severity == "BLOCKER" then 1
    else if pyUpper severity == "HIGH" then 2
    else if pyUpper severity == "MEDIUM" then 3
    else if pyUpper severity == "LOW" then 4
    else if pyUpper severity == "INFO" then 5
    else 99
  else
    if pyUpper severity == "BLOCKER" then 1
    else if pyUpper severity == "CRITICAL" then 2
    else if pyUpper severity == "MAJOR" then 3
    else if pyUpper severity == "MINOR" then 4
    else if pyUpper severity == "INFO" then 5
    else 99

end utils

namespace pdfgen

/-- Embeds `get_severity_order` from src/report/pdfgen.py lines 70-86: its MQR table
has only HIGH, MEDIUM, LOW. -/
def get_severity_order (severity : String) (mode : String) : Nat :=
  if mode == "MQR" then
    if pyUpper severity == "HIGH" then 1
    else if pyUpper severity == "MEDIUM" then 2
    else if pyUpper severity == "LOW" then 3
    else 99
  else
    if pyUpper severity == "BLOCKER" then 1
    else if pyUpper severity == "CRITICAL" then 2
    else if pyUpper severity == "MAJOR" then 3
    else if pyUpper severity == "MINOR" then 4
    else if pyUpper severity == "INFO" then 5
    else 99

end pdfgen

/-! ## Category classification (get_issues_by_impact_category) -/

/-- The tag test of the legacy SECURITY fallback:
`any(tag.lower() in ['security', 'cwe', 'owasp'] for tag in issue.tags)`. -/
def securityTagMatch (tags : List String) : Bool :=
  tags.any (fun tag => ["security", "cwe", "owasp"].contains (pyLower tag))

/-- The legacy (no-impacts) categorization branch of
`get_issues_by_impact_category` (src/report/issues.py lines 32-44). -/
def legacyMatch (issue : SonarQubeIssue) (category : String) : Bool :=
  if pyUpper category == "SECURITY" then
    pyUpper issue.type == "VULNERABILITY" ||
      pyUpper issue.type == "SECURITY_HOTSPOT" ||
      securityTagMatch issue.tags
  else if pyUpper category == "RELIABILITY" then
    pyUpper issue.type == "BUG"
  else if pyUpper category == "MAINTAINABILITY" then
    pyUpper issue.type == "CODE_SMELL"
  else
    false

/-- The impact scan of `get_issues_by_impact_category`: the issue is appended
as soon as one impact's `softwareQuality` (default `''`) matches the target
category, case-insensitively. -/
def impactMatch (issue : SonarQubeIssue) (category : String) : Bool :=
  issue.impacts.any (fun impact =>
    pyUpper (impact.softwareQuality.getD "") == pyUpper category)

/-- Whether one issue is kept by `get_issues_by_impact_category` for the given
category and mode (src/report/issues.py lines 17-44).  The source keeps the
MQR branch and the fallback impacts branch separate even though their bodies
coincide; both are kept here. -/
def issueMatchesCategory (issue : SonarQubeIssue) (category : String) (mode : String) : Bool :=
  if mode == "MQR" && !issue.impacts.isEmpty then
    impactMatch issue category
  else if !issue.impacts.isEmpty then
    impactMatch issue category
  else
    legacyMatch issue category

/-- Embeds `get_issues_by_impact_category` from src/report/issues.py lines 13-46: the
loop appends each issue at most once (inner `break`), i.e. it filters. -/
def get_issues_by_impact_category (issues : List SonarQubeIssue)
    (category : String) (mode : String) : List SonarQubeIssue :=
  issues.filter (fun i => issueMatchesCategory i category mode)

/-! ## Paginator (paginate_api_response, src/api/pagination.py)

The server is abstracted as a function from page number to the decoded page:
the page's item array (the endpoint's data field) and its reported total (the
endpoint's total field).  Besides the accumulated items, the embedding also
records the list of page numbers actually requested, so that claims about the
number of requests can be stated. -/

/-- One decoded page of a paged endpoint. -/
structure PageResponse (α : Type) where
  items : List α
  total : Nat
deriving Repr, DecidableEq

/-- Test `if max_pages and page >= max_pages` — Python treats `max_pages = 0` or
`None` as no cap. -/
def maxPagesHit (max_pages : Option Nat) (page : Nat) : Bool :=
  match max_pages with
  | none => false
  | some 0 => false
  | some (m + 1) => m + 1 ≤ page

/-- The `while True` loop of `paginate_api_response` after its first
iteration, once `total_items` has been captured from the first response
(lines 60-119 of src/api/pagination.py).  `pages` and `all_items` accumulate
the requested page numbers and fetched items. -/
def paginateLoop (server : Nat → PageResponse α) (max_pages : Option Nat)
    (total_items : Nat) (page : Nat) (pages : List Nat) (all_items : List α) :
    List Nat × List α :=
  if maxPagesHit max_pages page then
    (pages ++ [page], all_items ++ (server page).items)
  else if total_items ≤ (all_items ++ (server page).items).length ||
      (server page).items.isEmpty then
    (pages ++ [page], all_items ++ (server page).items)
  else
    paginateLoop server max_pages total_items (page + 1) (pages ++ [page])
      (all_items ++ (server page).items)
termination_by total_items - all_items.length
decreasing_by
  rename_i _hcap hstop
  simp only [Bool.or_eq_true, not_or, decide_eq_true_eq, List.isEmpty_iff,
    Bool.not_eq_true, decide_eq_false_iff_not, not_le, List.length_append] at hstop ⊢
  obtain ⟨hlt, hne⟩ := hstop
  have hpos : 0 < (server page).items.length := List.length_pos.mpr hne
  omega

/-- Embeds `paginate_api_response` from src/api/pagination.py lines 11-122, with the
first loop iteration peeled off to capture `total_items` from the first
response (in the source `total_items` is read once, on the first page).
Returns the requested page numbers together with the accumulated items. -/
def paginate_api_response (server : Nat → PageResponse α) (max_pages : Option Nat) :
    List Nat × List α :=
  let resp := server 1
  let total_items := resp.total
  if maxPagesHit max_pages 1 then ([1], resp.items)
  else if total_items ≤ resp.items.length || resp.items.isEmpty then ([1], resp.items)
  else paginateLoop server max_pages total_items 2 [1] resp.items

/-- A paged endpoint serving a fixed item sequence `L` in pages of
`page_size`, consistently reporting `total` (the shape of the fake endpoint in
the paginator claims). -/
def pagedServer (L : List α) (page_size : Nat) (total : Nat) : Nat → PageResponse α :=
  fun p => ⟨(L.drop (page_size * (p - 1))).take page_size, total⟩

/-! ## HTTP client retry loop (SonarQubeClient._request, src/api/client.py)

Each attempt's outcome (the server's response, or a network/timeout
exception) is supplied as a function of the attempt index.  The embedding
counts the requests actually issued.  Sleeping (`time.sleep`) is a pure
side-effect and is not modelled. -/

/-- What one HTTP attempt produces: a response (status, optional Retry-After
header, body, decoded JSON), or a `requests` exception. -/
inductive HttpAttempt (α : Type) where
  | response (status : Nat) (retryAfter : Option Nat) (body : String) (json : α)
  | exn (msg : String)
deriving Repr, DecidableEq

/-- The cause carried to `handle_api_error`: an HTTP error status with its
response body, or a network error. -/
inductive ApiErrorCause where
  | httpError (status : Nat) (body : String)
  | netError (msg : String)
deriving Repr, DecidableEq

/-- The value `_request` produces: the decoded JSON, the error surfaced by
`handle_api_error`, or nothing (the Python loop can fall through its
`while retries <= max_retries` condition after a 429, returning `None`). -/
inductive ReqOutcome (α : Type) where
  | ok (json : α)
  | apiError (cause : ApiErrorCause) (url : String)
  | noResult
deriving Repr, DecidableEq

/-- Modelled from the spec: `handle_api_error` is called by
`SonarQubeClient._request` (src/api/client.py line 77) but is not defined
anywhere under src/; per the spec it surfaces a typed error carrying the
failed URL and the underlying cause (for HTTP errors, the status code and
response body). -/
def handle_api_error (cause : ApiErrorCause) (url : String) : ReqOutcome α :=
  .apiError cause url

/-- Result of `_request` together with the number of HTTP requests issued. -/
structure RequestTrace (α : Type) where
  outcome : ReqOutcome α
  attempts : Nat
deriving Repr, DecidableEq

/-- The retry loop of `SonarQubeClient._request` (src/api/client.py lines
43-77).  `budget` is `max_retries + 1 - retries`: the loop runs while
`retries <= max_retries`, a 429 always consumes one unit of budget, and a
`requests` exception — which includes the `HTTPError` raised by
`raise_for_status()` on any 4xx/5xx status — retries while
`retries < max_retries` (budget at least 2) and otherwise returns
`handle_api_error`.  `made` counts requests issued so far. -/
def requestLoop (server : Nat → HttpAttempt α) (url : String) :
    Nat → Nat → RequestTrace α
  | 0, made => ⟨.noResult, made⟩
  | budget + 1, made =>
    match server made with
    | .response status _retryAfter body json =>
      if status == 429 then
        requestLoop server url budget (made + 1)
      else if 400 ≤ status && status < 600 then
        match budget with
        | 0 => ⟨handle_api_error (.httpError status body) url, made + 1⟩
        | b + 1 => requestLoop server url (b + 1) (made + 1)
      else
        ⟨.ok json, made + 1⟩
    | .exn msg =>
      match budget with
      | 0 => ⟨handle_api_error (.netError msg) url, made + 1⟩
      | b + 1 => requestLoop server url (b + 1) (made + 1)

/-- Embeds `SonarQubeClient._request`: the loop entered with `retries = 0`. -/
def request_with_retries (server : Nat → HttpAttempt α) (max_retries : Nat)
    (url : String) : RequestTrace α :=
  requestLoop server url (max_retries + 1) 0

/-! ## Source snippets (get_code_snippet and get_report_data, src/api/get_data.py)

The sources-endpoint call inside `get_code_snippet` is abstracted as its
outcome: either the fetch raised, or it returned a decoded response whose
`sources` array is a list of (line number, code) pairs. -/

/-- Outcome of the snippet fetch inside `get_code_snippet`. -/
inductive SnippetFetch where
  | failure (msg : String)
  | success (sources : List (Nat × String))
deriving Repr, DecidableEq

/-- The Python format spec `{line_num:3d}`: decimal, left-padded with spaces
to width 3. -/
def padLineNum (n : Nat) : String :=
  let s := toString n
  if s.length < 3 then String.mk (List.replicate (3 - s.length) ' ') ++ s else s

/-- One formatted snippet line:
`f"{marker}{line_num:3d}: {code}"` with marker `">>> "` on the issue's line. -/
def formatSnippetLine (line : Nat) (entry : Nat × String) : String :=
  (if entry.1 == line then ">>> " else "    ") ++ padLineNum entry.1 ++ ": " ++ entry.2

/-- Embeds `get_code_snippet` from src/api/get_data.py lines 46-81: empty string on a
failed fetch or an empty `sources` array, otherwise the formatted ±3-line
snippet joined with newlines. -/
def get_code_snippet (fetched : SnippetFetch) (line : Nat) : String :=
  match fetched with
  | .failure _ => ""
  | .success sources =>
    if sources.isEmpty then ""
    else String.intercalate "\n" (sources.map (formatSnippetLine line))

/-- The placeholder substituted for issues (src/api/get_data.py line 177). -/
def issuePlaceholder : String := "No code snippet available for this issue."

/-- The placeholder substituted for hotspots (src/api/get_data.py line 210). -/
def hotspotPlaceholder : String := "No code snippet available for this hotspot."

/-- The per-issue body of the snippet loop in `get_report_data`
(src/api/get_data.py lines 164-183): when `issue.line` is truthy (Python:
`None` and `0` are falsy), fetch the snippet, replace a whitespace-only
result by the placeholder, and store it; otherwise leave the issue as is. -/
def processIssueSnippet (issue : SonarQubeIssue) (fetched : SnippetFetch) :
    SonarQubeIssue :=
  match issue.line with
  | some n =>
    if n ≠ 0 then
      let cs := get_code_snippet fetched n
      let cs2 := if pyStrip cs == "" then issuePlaceholder else cs
      { issue with code_snippet := some cs2 }
    else issue
  | none => issue

/-- The per-hotspot body of the snippet loop in `get_report_data`
(src/api/get_data.py lines 196-216), identical except for its placeholder. -/
def processHotspotSnippet (hotspot : SonarQubeHotspot) (fetched : SnippetFetch) :
    SonarQubeHotspot :=
  match hotspot.line with
  | some n =>
    if n ≠ 0 then
      let cs := get_code_snippet fetched n
      let cs2 := if pyStrip cs == "" then hotspotPlaceholder else cs
      { hotspot with code_snippet := some cs2 }
    else hotspot
  | none => hotspot

/-- The issue-processing loop of `get_report_data`: every issue is appended
to the result, with its snippet filled in when it carries a truthy line. -/
def processIssues (issues : List SonarQubeIssue)
    (fetch : SonarQubeIssue → SnippetFetch) : List SonarQubeIssue :=
  issues.map (fun i => processIssueSnippet i (fetch i))

/-- The hotspot-processing loop of `get_report_data`. -/
def processHotspots (hotspots : List SonarQubeHotspot)
    (fetch : SonarQubeHotspot → SnippetFetch) : List SonarQubeHotspot :=
  hotspots.map (fun h => processHotspotSnippet h (fetch h))

/-! ## Rules lookup (get_rules, src/api/get_data.py lines 19-43) -/

/-- Modelled from the spec: `SonarQubeRule` is imported by src/api/get_data.py
from data.models but is not defined under src/; per the spec a Rule has an
identifier, a display name, and an ordered sequence of named description
sections. -/
structure SonarQubeRule where
  key : String := ""
  name : String := ""
  sections : List (String × String) := []
deriving Repr, DecidableEq

/-- Outcome of one `/api/rules/show` fetch inside `get_rules`: the request
raised, or it returned a response that contains a `rule` payload or not. -/
inductive RuleFetch where
  | raises (msg : String)
  | ok (rule : Option SonarQubeRule)
deriving Repr, DecidableEq

/-- The `for rule_key in rule_keys` loop of `get_rules`: an exception raised
by any fetch propagates out of the loop (result `none`); a response without a
`rule` key silently skips that rule; otherwise the rule is added. -/
def getRulesLoop (fetch : String → RuleFetch) :
    List String → List (String × SonarQubeRule) → Option (List (String × SonarQubeRule))
  | [], acc => some acc
  | k :: ks, acc =>
    match fetch k with
    | .raises _ => none
    | .ok none => getRulesLoop fetch ks acc
    | .ok (some r) => getRulesLoop fetch ks (acc ++ [(k, r)])

/-- Embeds `get_rules` from src/api/get_data.py lines 19-43: empty map for no keys;
the whole loop runs inside one `try`, whose `except` returns the empty map. -/
def get_rules (fetch : String → RuleFetch) (rule_keys : List String) :
    List (String × SonarQubeRule) :=
  if rule_keys.isEmpty then []
  else
    match getRulesLoop fetch rule_keys [] with
    | some rules => rules
    | none => []

/-! # Theorems settling the claims -/

/-- C1: `detect_sonarqube_mode` returns MQR exactly when some finding carries
a non-empty impact list and the observed severity strings (each finding's
legacy severity plus every impact severity, upper-cased) intersect
HIGH/MEDIUM/LOW; in every other case — whether or not the observed severities
intersect BLOCKER/CRITICAL/MAJOR/MINOR/INFO, including the empty list — it
returns STANDARD. -/
theorem detect_sonarqube_mode_correct (issues : List SonarQubeIssue) :
    (detect_sonarqube_mode issues = "MQR" ↔
      hasImpacts issues = true ∧
        ∃ s ∈ observedSeverities issues, s ∈ mqr_severities) ∧
    (¬(hasImpacts issues = true ∧
        ∃ s ∈ observedSeverities issues, s ∈ mqr_severities) →
      detect_sonarqube_mode issues = "STANDARD") := by
  unfold detect_sonarqube_mode
  by_cases hA : hasImpacts issues = true <;>
    by_cases hB : (observedSeverities issues).any
        (fun s => mqr_severities.contains s) = true <;>
      simp_all

/-- C3 counterexample: the repository does not apply one canonical MQR table
everywhere.  At the call sites that use src/report/utils.py (e.g.
src/report/issues.py), MQR maps HIGH to 2 and BLOCKER to 1 — not HIGH to 1
and BLOCKER to 99 as the claim states — and the two in-repo ranking
functions disagree at the concrete input ("HIGH", "MQR"). -/
theorem severity_order_tables_disagree :
    utils.get_severity_order "HIGH" "MQR" = 2 ∧
    utils.get_severity_order "BLOCKER" "MQR" = 1 ∧
    pdfgen.get_severity_order "HIGH" "MQR" = 1 ∧
    pdfgen.get_severity_order "BLOCKER" "MQR" = 99 ∧
    utils.get_severity_order "HIGH" "MQR" ≠ pdfgen.get_severity_order "HIGH" "MQR" := by
  decide

/-- C3 amended: in STANDARD mode both ranking functions implement the claimed
table (BLOCKER 1, CRITICAL 2, MAJOR 3, MINOR 4, INFO 5, anything else 99) and
agree everywhere; in MQR mode there are two distinct tables: the pdfgen one
maps HIGH 1, MEDIUM 2, LOW 3 and anything else (including BLOCKER) to 99,
while the utils one — used by the issue-section call sites — maps BLOCKER 1,
HIGH 2, MEDIUM 3, LOW 4, INFO 5 and anything else to 99. -/
theorem get_severity_order_tables :
    (∀ s, utils.get_severity_order s "STANDARD" = pdfgen.get_severity_order s "STANDARD") ∧
    (utils.get_severity_order "BLOCKER" "STANDARD" = 1 ∧
      utils.get_severity_order "CRITICAL" "STANDARD" = 2 ∧
      utils.get_severity_order "MAJOR" "STANDARD" = 3 ∧
      utils.get_severity_order "MINOR" "STANDARD" = 4 ∧
      utils.get_severity_order "INFO" "STANDARD" = 5) ∧
    (∀ s, pyUpper s ∉ standard_severities → utils.get_severity_order s "STANDARD" = 99) ∧
    (pdfgen.get_severity_order "HIGH" "MQR" = 1 ∧
      pdfgen.get_severity_order "MEDIUM" "MQR" = 2 ∧
      pdfgen.get_severity_order "LOW" "MQR" = 3) ∧
    (∀ s, pyUpper s ∉ mqr_severities → pdfgen.get_severity_order s "MQR" = 99) ∧
    (utils.get_severity_order "BLOCKER" "MQR" = 1 ∧
      utils.get_severity_order "HIGH" "MQR" = 2 ∧
      utils.get_severity_order "MEDIUM" "MQR" = 3 ∧
      utils.get_severity_order "LOW" "MQR" = 4 ∧
      utils.get_severity_order "INFO" "MQR" = 5) ∧
    (∀ s, pyUpper s ∉ (["BLOCKER", "HIGH", "MEDIUM", "LOW", "INFO"] : List String) →
      utils.get_severity_order s "MQR" = 99) := by
  refine ⟨fun s => rfl, by decide, ?_, by decide, ?_, by decide, ?_⟩
  · intro s h
    simp only [standard_severities, List.mem_cons, List.not_mem_nil, or_false, not_or] at h
    obtain ⟨h1, h2, h3, h4, h5⟩ := h
    simp [utils.get_severity_order, h1, h2, h3, h4, h5]
  · intro s h
    simp only [mqr_severities, List.mem_cons, List.not_mem_nil, or_false, not_or] at h
    obtain ⟨h1, h2, h3⟩ := h
    simp [pdfgen.get_severity_order, h1, h2, h3]
  · intro s h
    simp only [List.mem_cons, List.not_mem_nil, or_false, not_or] at h
    obtain ⟨h1, h2, h3, h4, h5⟩ := h
    simp [utils.get_severity_order, h1, h2, h3, h4, h5]

/-- A concrete finding whose impact list spans two target categories. -/
def multiImpactIssue : SonarQubeIssue :=
  { key := "i1", severity := "HIGH", type := "BUG",
    impacts := [{ softwareQuality := some "SECURITY", severity := some "HIGH" },
                { softwareQuality := some "RELIABILITY", severity := some "HIGH" }] }

/-- C4 counterexample: a finding whose impact list carries both a SECURITY and
a RELIABILITY impact appears in the filtered result of
`get_issues_by_impact_category` for two different categories in the same
classification pass — findings are not assigned to at most one category. -/
theorem issue_in_two_categories :
    multiImpactIssue ∈
        get_issues_by_impact_category [multiImpactIssue] "SECURITY" "MQR" ∧
      multiImpactIssue ∈
        get_issues_by_impact_category [multiImpactIssue] "RELIABILITY" "MQR" := by
  decide

/-- C4 amended: a finding may appear in the results of several categories when
its impact list (or the overlapping legacy rules) matches several of them;
what does hold is that, for any single category and mode, the filtered result
is a sublist of the input — each finding is included at most once per
category, never duplicated within one section. -/
theorem get_issues_by_impact_category_sublist (issues : List SonarQubeIssue)
    (category : String) (mode : String) :
    List.Sublist (get_issues_by_impact_category issues category mode) issues ∧
      ∀ i : SonarQubeIssue,
        (get_issues_by_impact_category issues category mode).count i ≤ issues.count i := by
  constructor
  · exact List.filter_sublist issues
  · intro i
    exact List.Sublist.count_le (List.filter_sublist issues) i

/-- A concrete finding with no impacts whose legacy type is CODE_SMELL but
which carries a security tag. -/
def taggedSmellIssue : SonarQubeIssue :=
  { key := "i2", type := "CODE_SMELL", tags := ["security"], impacts := [] }

/-- C7 counterexample: under STANDARD mode, a finding with an empty impact
list whose type is CODE_SMELL (not VULNERABILITY) but which carries a
`security` tag is placed in the SECURITY category (and also in
MAINTAINABILITY), so the classification is not exactly the legacy
type-mapping table. -/
theorem legacy_tagged_issue_in_security :
    taggedSmellIssue.impacts = [] ∧
    pyUpper taggedSmellIssue.type ≠ "VULNERABILITY" ∧
    taggedSmellIssue ∈
      get_issues_by_impact_category [taggedSmellIssue] "SECURITY" "STANDARD" ∧
    taggedSmellIssue ∈
      get_issues_by_impact_category [taggedSmellIssue] "MAINTAINABILITY" "STANDARD" := by
  decide

/-- C7 amended: for findings with an empty impact list under STANDARD mode,
RELIABILITY contains exactly the type-BUG findings and MAINTAINABILITY
exactly the type-CODE_SMELL findings, but SECURITY contains the findings of
type VULNERABILITY or SECURITY_HOTSPOT or carrying a tag in
security/cwe/owasp — the legacy mapping is by type and security tags, not by
type alone. -/
theorem legacy_standard_classification (issues : List SonarQubeIssue)
    (i : SonarQubeIssue) (h : i.impacts = []) :
    (i ∈ get_issues_by_impact_category issues "SECURITY" "STANDARD" ↔
      i ∈ issues ∧ (pyUpper i.type = "VULNERABILITY" ∨ pyUpper i.type = "SECURITY_HOTSPOT" ∨
        ∃ t ∈ i.tags, pyLower t ∈ (["security", "cwe", "owasp"] : List String))) ∧
    (i ∈ get_issues_by_impact_category issues "RELIABILITY" "STANDARD" ↔
      i ∈ issues ∧ pyUpper i.type = "BUG") ∧
    (i ∈ get_issues_by_impact_category issues "MAINTAINABILITY" "STANDARD" ↔
      i ∈ issues ∧ pyUpper i.type = "CODE_SMELL") := by
  have hm : ∀ cat, issueMatchesCategory i cat "STANDARD" = legacyMatch i cat := by
    intro cat
    simp [issueMatchesCategory, h]
  have e1 : (pyUpper "SECURITY" == "SECURITY") = true := by decide
  have e2 : (pyUpper "RELIABILITY" == "SECURITY") = false := by decide
  have e3 : (pyUpper "RELIABILITY" == "RELIABILITY") = true := by decide
  have e4 : (pyUpper "MAINTAINABILITY" == "SECURITY") = false := by decide
  have e5 : (pyUpper "MAINTAINABILITY" == "RELIABILITY") = false := by decide
  have e6 : (pyUpper "MAINTAINABILITY" == "MAINTAINABILITY") = true := by decide
  refine ⟨?_, ?_, ?_⟩ <;>
    rw [get_issues_by_impact_category, List.mem_filter, hm] <;>
      simp [legacyMatch, e1, e2, e3, e4, e5, e6, securityTagMatch,
        and_congr_right_iff, or_assoc]

/-- A concrete legacy finding of type VULNERABILITY with no impacts. -/
def vulnIssue : SonarQubeIssue :=
  { key := "i3", type := "VULNERABILITY", impacts := [] }

/-- C7 witness: the amended classification applied to a concrete
VULNERABILITY finding with no impacts. -/
theorem legacy_standard_classification_witness :
    vulnIssue ∈ get_issues_by_impact_category [vulnIssue] "SECURITY" "STANDARD" :=
  ((legacy_standard_classification [vulnIssue] vulnIssue rfl).1).mpr
    ⟨by decide, Or.inl (by decide)⟩

/-- A server whose every attempt answers HTTP 404. -/
def always404 : Nat → HttpAttempt Unit := fun _ => .response 404 none "Not Found" ()

/-- C2 counterexample: with the default `max_retries = 3`, a request whose
every attempt answers HTTP 404 issues 4 HTTP attempts, not 1 — the
`HTTPError` raised by `raise_for_status()` is a `requests.RequestException`
and is therefore retried, so a 4xx response does not fail immediately. -/
theorem http_error_is_retried :
    (request_with_retries always404 3 "url").attempts = 4 ∧
    (request_with_retries always404 3 "url").attempts ≠ 1 ∧
    request_with_retries always404 3 "url" =
      ⟨.apiError (.httpError 404 "Not Found") "url", 4⟩ := by
  decide

/-- The retry loop under constant non-429 HTTP-error responses: every unit of
budget is spent on one more attempt, after which `handle_api_error` receives
the status and body. -/
theorem requestLoop_all_http_error {α : Type} (server : Nat → HttpAttempt α) (url : String)
    (status : Nat) (ra : Option Nat) (body : String) (json : α)
    (hserver : ∀ n, server n = .response status ra body json)
    (h4 : 400 ≤ status) (h6 : status < 600) (h429 : status ≠ 429) :
    ∀ k m, requestLoop server url (k + 1) m =
      ⟨handle_api_error (.httpError status body) url, m + (k + 1)⟩ := by
  intro k
  induction k with
  | zero =>
    intro m
    simp [requestLoop, hserver, h4, h6, h429]
  | succ n ih =>
    intro m
    rw [requestLoop.eq_def]
    simp [hserver, h4, h6, h429, ih (m + 1)]
    omega

/-- C2 amended: on an HTTP 4xx/5xx status other than 429 the request is not
raised immediately; it is retried like any other `requests` exception, up to
`max_retries` additional attempts with a fixed delay, and only after
exhausting the budget (`max_retries + 1` attempts in total) is the error —
with its status code and response body — surfaced through
`handle_api_error`. -/
theorem request_http_error_retry_behavior {α : Type} (server : Nat → HttpAttempt α)
    (max_retries : Nat) (url : String) (status : Nat) (ra : Option Nat)
    (body : String) (json : α)
    (hserver : ∀ n, server n = .response status ra body json)
    (h4 : 400 ≤ status) (h6 : status < 600) (h429 : status ≠ 429) :
    request_with_retries server max_retries url =
      ⟨handle_api_error (.httpError status body) url, max_retries + 1⟩ := by
  have := requestLoop_all_http_error server url status ra body json hserver h4 h6 h429 max_retries 0
  simpa [request_with_retries] using this

/-- A server whose every attempt answers HTTP 405. -/
def always405 : Nat → HttpAttempt Unit := fun _ => .response 405 none "nope" ()

/-- C2 witness: the amended retry behaviour at a concrete server (constant
HTTP 405 responses) and `max_retries = 2`: three attempts, then the error is
surfaced with status and body. -/
theorem request_http_error_retry_behavior_witness :
    request_with_retries always405 2 "u" =
      ⟨handle_api_error (.httpError 405 "nope") "u", 3⟩ :=
  request_http_error_retry_behavior always405 2 "u" 405 none "nope" ()
    (fun _ => rfl) (by decide) (by decide) (by decide)

/-- C8: for a line-bearing issue or hotspot whose snippet fetch raised or
returned an empty source list, collection stores the fixed placeholder in
`code_snippet` — never the empty string, never null — and the collection loop
itself processes every finding (it is not aborted). -/
theorem snippet_placeholder_on_failure (issue : SonarQubeIssue) (hotspot : SonarQubeHotspot)
    (issues : List SonarQubeIssue) (fetch : SonarQubeIssue → SnippetFetch)
    (fi fh : SnippetFetch) (n m : Nat)
    (hline : issue.line = some n) (hn : n ≠ 0)
    (hhline : hotspot.line = some m) (hm : m ≠ 0)
    (hfi : (∃ e, fi = .failure e) ∨ fi = .success [])
    (hfh : (∃ e, fh = .failure e) ∨ fh = .success []) :
    (processIssueSnippet issue fi).code_snippet = some issuePlaceholder ∧
    issuePlaceholder ≠ "" ∧
    (processHotspotSnippet hotspot fh).code_snippet = some hotspotPlaceholder ∧
    hotspotPlaceholder ≠ "" ∧
    (processIssues issues fetch).length = issues.length := by
  have hgi : get_code_snippet fi n = "" := by
    rcases hfi with ⟨e, rfl⟩ | rfl <;> simp [get_code_snippet]
  have hgh : get_code_snippet fh m = "" := by
    rcases hfh with ⟨e, rfl⟩ | rfl <;> simp [get_code_snippet]
  have hstrip : (pyStrip "" == "") = true := by decide
  refine ⟨?_, by decide, ?_, by decide, by simp [processIssues]⟩
  · simp [processIssueSnippet, hline, hn, hgi, hstrip]
  · simp [processHotspotSnippet, hhline, hm, hgh, hstrip]

/-- The spec's scenario input: a finding with line 42 whose snippet fetch
returns an empty source list. -/
def emptyFetchIssue : SonarQubeIssue := { key := "w8", line := some 42 }

/-- A hotspot with a line whose snippet fetch raises. -/
def emptyFetchHotspot : SonarQubeHotspot := { key := "w8h", line := some 7 }

/-- C8 witness: the placeholder substitution at the concrete scenario inputs. -/
theorem snippet_placeholder_on_failure_witness :
    (processIssueSnippet emptyFetchIssue (.success [])).code_snippet =
        some issuePlaceholder ∧
      (processHotspotSnippet emptyFetchHotspot (.failure "boom")).code_snippet =
        some hotspotPlaceholder :=
  ⟨(snippet_placeholder_on_failure emptyFetchIssue emptyFetchHotspot []
      (fun _ => .success []) (.success []) (.failure "boom") 42 7 rfl (by decide)
      rfl (by decide) (Or.inr rfl) (Or.inl ⟨"boom", rfl⟩)).1,
   (snippet_placeholder_on_failure emptyFetchIssue emptyFetchHotspot []
      (fun _ => .success []) (.success []) (.failure "boom") 42 7 rfl (by decide)
      rfl (by decide) (Or.inr rfl) (Or.inl ⟨"boom", rfl⟩)).2.2.1⟩

/-- C10: a finding that carries no line number is left with a null
`code_snippet` by collection — the placeholder substitution applies only to
line-bearing findings (issues and hotspots enter collection with the
`from_dict` default `code_snippet = None`). -/
theorem no_line_leaves_snippet_null (issue : SonarQubeIssue) (hotspot : SonarQubeHotspot)
    (fi fh : SnippetFetch)
    (hi : issue.line = none) (hh : hotspot.line = none)
    (hcsi : issue.code_snippet = none) (hcsh : hotspot.code_snippet = none) :
    (processIssueSnippet issue fi).code_snippet = none ∧
    (processHotspotSnippet hotspot fh).code_snippet = none := by
  simp [processIssueSnippet, processHotspotSnippet, hi, hh, hcsi, hcsh]

/-- A concrete issue without a line number. -/
def noLineIssue : SonarQubeIssue := { key := "w10" }

/-- A concrete hotspot without a line number. -/
def noLineHotspot : SonarQubeHotspot := { key := "w10h" }

/-- C10 witness: null snippets observed at concrete findings without lines. -/
theorem no_line_leaves_snippet_null_witness :
    (processIssueSnippet noLineIssue (.success [(1, "x = 1")])).code_snippet = none ∧
    (processHotspotSnippet noLineHotspot (.failure "boom")).code_snippet = none :=
  no_line_leaves_snippet_null noLineIssue noLineHotspot
    (.success [(1, "x = 1")]) (.failure "boom") rfl rfl rfl rfl

/-- A concrete rule for the rules-lookup counterexample. -/
def c9rule : SonarQubeRule := { key := "r1", name := "Rule One" }

/-- A fetch where rule r1 succeeds and every other key raises. -/
def c9fetch : String → RuleFetch :=
  fun k => if k == "r1" then .ok (some c9rule) else .raises "boom"

/-- C9 counterexample: when fetching rule r2 raises after rule r1 was
fetched successfully, `get_rules` returns the empty mapping — the
successfully fetched r1 is lost too, because the single `try` wraps the
whole loop and its `except` returns the empty map. -/
theorem rules_lost_on_single_failure :
    c9fetch "r1" = .ok (some c9rule) ∧
    c9fetch "r2" = .raises "boom" ∧
    get_rules c9fetch ["r1", "r2"] = [] := by
  decide

/-- A raised fetch anywhere in the key list propagates out of the loop. -/
theorem getRulesLoop_raises (fetch : String → RuleFetch) :
    ∀ (keys : List String) (acc : List (String × SonarQubeRule)),
      (∃ k ∈ keys, ∃ e, fetch k = .raises e) → getRulesLoop fetch keys acc = none := by
  intro keys
  induction keys with
  | nil => intro acc h; simp at h
  | cons k ks ih =>
    intro acc h
    rcases h with ⟨k0, hk0, e, he⟩
    rcases List.mem_cons.mp hk0 with rfl | hmem
    · simp [getRulesLoop, he]
    · cases hf : fetch k with
      | raises msg => simp [getRulesLoop, hf]
      | ok r =>
        cases r <;> simp [getRulesLoop, hf] <;> exact ih _ ⟨k0, hmem, e, he⟩

/-- Without any raised fetch, the loop keeps exactly the keys whose response
contains a rule payload, in order. -/
theorem getRulesLoop_ok (fetch : String → RuleFetch) :
    ∀ (keys : List String) (acc : List (String × SonarQubeRule)),
      (∀ k ∈ keys, ∀ e, fetch k ≠ .raises e) →
      getRulesLoop fetch keys acc =
        some (acc ++ keys.filterMap (fun k =>
          match fetch k with
          | .ok (some r) => some (k, r)
          | _ => none)) := by
  intro keys
  induction keys with
  | nil => intro acc _; simp [getRulesLoop]
  | cons k ks ih =>
    intro acc h
    cases hf : fetch k with
    | raises msg => exact absurd hf (h k (List.mem_cons_self k ks) msg)
    | ok r =>
      cases r with
      | none =>
        simp only [getRulesLoop, hf]
        rw [ih acc (fun k2 hk2 => h k2 (List.mem_cons_of_mem k hk2))]
        simp [List.filterMap_cons, hf]
      | some rule =>
        simp only [getRulesLoop, hf]
        rw [ih (acc ++ [(k, rule)]) (fun k2 hk2 => h k2 (List.mem_cons_of_mem k hk2))]
        simp [List.filterMap_cons, hf]

/-- C9 amended: `get_rules` never raises (the failure is not fatal to
collection), but if the fetch of any referenced rule key raises it returns
the empty mapping — dropping every rule, not only the failing one.  Only
when no fetch raises does it return exactly the rules whose responses
carried a rule payload (a payload-less response omits just that rule). -/
theorem get_rules_error_behavior (fetch : String → RuleFetch) (keys : List String) :
    ((∃ k ∈ keys, ∃ e, fetch k = .raises e) → get_rules fetch keys = []) ∧
    ((∀ k ∈ keys, ∀ e, fetch k ≠ .raises e) →
      get_rules fetch keys =
        keys.filterMap (fun k =>
          match fetch k with
          | .ok (some r) => some (k, r)
          | _ => none)) := by
  constructor
  · intro h
    have hne : ¬keys.isEmpty := by
      rcases h with ⟨k, hk, _⟩
      cases keys <;> simp_all
    simp [get_rules, hne, getRulesLoop_raises fetch keys [] h]
  · intro h
    by_cases hk : keys.isEmpty
    · cases keys <;> simp_all [get_rules]
    · simp [get_rules, hk, getRulesLoop_ok fetch keys [] h]

/-- Shape of every `paginateLoop` run: it requests a non-empty block of
consecutive pages starting at `page`, returns exactly the concatenation of
their item arrays, and every requested page except possibly the last served
a non-empty item array. -/
theorem paginateLoop_structure {α : Type} (server : Nat → PageResponse α) (mp : Option Nat)
    (total : Nat) :
    ∀ (page : Nat) (pages : List Nat) (acc : List α),
    ∃ k, 1 ≤ k ∧
      (paginateLoop server mp total page pages acc).1 = pages ++ List.range' page k ∧
      (paginateLoop server mp total page pages acc).2 =
        acc ++ (List.range' page k).flatMap (fun q => (server q).items) ∧
      ∀ j, j + 1 < k → (server (page + j)).items ≠ [] := by
  intro page pages acc
  induction page, pages, acc using paginateLoop.induct server mp total with
  | case1 page pages acc h =>
    refine ⟨1, le_refl 1, ?_, ?_, fun j hj => absurd hj (by omega)⟩ <;>
      rw [paginateLoop, if_pos h] <;> simp [List.range'_one]
  | case2 page pages acc h1 h2 =>
    refine ⟨1, le_refl 1, ?_, ?_, fun j hj => absurd hj (by omega)⟩ <;>
      rw [paginateLoop, if_neg h1, if_pos h2] <;> simp [List.range'_one]
  | case3 page pages acc h1 h2 ih1 =>
    obtain ⟨k, hk1, hp, hi, hne⟩ := ih1
    have hitems : (server page).items ≠ [] := by
      simp only [Bool.or_eq_true, not_or, decide_eq_true_eq, List.isEmpty_iff,
        Bool.not_eq_true, decide_eq_false_iff_not, not_le] at h2
      exact h2.2
    refine ⟨k + 1, by omega, ?_, ?_, ?_⟩
    · rw [paginateLoop, if_neg h1, if_neg h2, hp, List.range'_succ]
      simp
    · rw [paginateLoop, if_neg h1, if_neg h2, hi, List.range'_succ]
      simp
    · intro j hj
      cases j with
      | zero => simpa using hitems
      | succ j2 =>
        have := hne j2 (by omega)
        simpa [Nat.add_assoc, Nat.add_comm, Nat.add_left_comm] using this

/-- Shape of every full `paginate_api_response` run: pages 1..k are requested
consecutively, the result is the concatenation of their item arrays, and only
the last requested page can have served an empty item array. -/
theorem paginate_structure {α : Type} (server : Nat → PageResponse α) (mp : Option Nat) :
    ∃ k, 1 ≤ k ∧
      (paginate_api_response server mp).1 = List.range' 1 k ∧
      (paginate_api_response server mp).2 =
        (List.range' 1 k).flatMap (fun q => (server q).items) ∧
      ∀ j, j + 1 < k → (server (1 + j)).items ≠ [] := by
  unfold paginate_api_response
  by_cases h1 : maxPagesHit mp 1 = true
  · rw [if_pos h1]
    exact ⟨1, le_refl 1, by simp [List.range'_one], by simp [List.range'_one],
      fun j hj => absurd hj (by omega)⟩
  · rw [if_neg h1]
    by_cases h2 : ((server 1).total ≤ (server 1).items.length || (server 1).items.isEmpty) = true
    · rw [if_pos h2]
      exact ⟨1, le_refl 1, by simp [List.range'_one], by simp [List.range'_one],
        fun j hj => absurd hj (by omega)⟩
    · rw [if_neg h2]
      obtain ⟨k, hk1, hp, hi, hne⟩ :=
        paginateLoop_structure server mp (server 1).total 2 [1] (server 1).items
      have hitems : (server 1).items ≠ [] := by
        simp only [Bool.or_eq_true, not_or, decide_eq_true_eq, List.isEmpty_iff,
          Bool.not_eq_true, decide_eq_false_iff_not, not_le] at h2
        exact h2.2
      refine ⟨k + 1, by omega, ?_, ?_, ?_⟩
      · rw [hp, List.range'_succ]
        simp
      · rw [hi, List.range'_succ]
        simp
      · intro j hj
        cases j with
        | zero => simpa using hitems
        | succ j2 =>
          have := hne j2 (by omega)
          simpa [Nat.add_assoc, Nat.add_comm, Nat.add_left_comm] using this

/-- C6: if a requested page served zero items, it is the last page requested
— pagination stops there rather than looping — and the returned items are
exactly those accumulated from the requested pages. -/
theorem paginate_stops_on_empty_page {α : Type} (server : Nat → PageResponse α)
    (mp : Option Nat) (p : Nat)
    (hp : p ∈ (paginate_api_response server mp).1)
    (he : (server p).items = []) :
    (∀ q ∈ (paginate_api_response server mp).1, q ≤ p) ∧
    (paginate_api_response server mp).2 =
      ((paginate_api_response server mp).1).flatMap (fun q => (server q).items) := by
  obtain ⟨k, hk1, hreq, hitems, hne⟩ := paginate_structure server mp
  constructor
  · intro q hq
    rw [hreq] at hp hq
    rw [List.mem_range'] at hp hq
    obtain ⟨jp, hjp, rfl⟩ := hp
    obtain ⟨jq, hjq, rfl⟩ := hq
    by_cases hlast : jp + 1 < k
    · exact absurd he (by simpa using hne jp hlast)
    · omega
  · rw [hreq, hitems]

/-- A server that reports a total of 5 but serves only empty pages. -/
def emptyPageServer : Nat → PageResponse Nat := fun _ => ⟨[], 5⟩

/-- C6 witness: against a server whose first page is empty although the
reported total is 5, pagination stops after that page. -/
theorem paginate_stops_on_empty_page_witness :
    (paginate_api_response emptyPageServer none).2 =
      ((paginate_api_response emptyPageServer none).1).flatMap
        (fun q => (emptyPageServer q).items) :=
  (paginate_stops_on_empty_page emptyPageServer none 1 (by decide) rfl).2

/-- C5: against any endpoint holding 1200 items, consistently reporting
total 1200 and serving them in pages of 500, `paginate_api_response` with
page size 500 and no page cap issues exactly three page requests — pages 1,
2, 3, of sizes 500, 500 and 200 — and returns exactly the 1200 items in
server order; when the server's items are distinct, the result has no
duplicate. -/
theorem paginate_1200_in_pages_of_500 (L : List Nat) (h : L.length = 1200) :
    paginate_api_response (pagedServer L 500 1200) none = ([1, 2, 3], L) ∧
    (pagedServer L 500 1200 1).items.length = 500 ∧
    (pagedServer L 500 1200 2).items.length = 500 ∧
    (pagedServer L 500 1200 3).items.length = 200 ∧
    (L.Nodup → (paginate_api_response (pagedServer L 500 1200) none).2.Nodup) := by
  have hs1 : pagedServer L 500 1200 1 = ⟨L.take 500, 1200⟩ := by
    norm_num [pagedServer]
  have hs2 : pagedServer L 500 1200 2 = ⟨(L.drop 500).take 500, 1200⟩ := by
    norm_num [pagedServer]
  have hs3 : pagedServer L 500 1200 3 = ⟨(L.drop 1000).take 500, 1200⟩ := by
    norm_num [pagedServer]
  have len1 : (L.take 500).length = 500 := by
    rw [List.length_take, h]
    omega
  have len2 : ((L.drop 500).take 500).length = 500 := by
    rw [List.length_take, List.length_drop, h]
    omega
  have len3 : ((L.drop 1000).take 500).length = 200 := by
    rw [List.length_take, List.length_drop, h]
    omega
  have hfull : L.take 500 ++ ((L.drop 500).take 500 ++ (L.drop 1000).take 500) = L := by
    have t3 : (L.drop 1000).take 500 = L.drop 1000 :=
      List.take_of_length_le (by simp [h])
    have d : L.drop 1000 = (L.drop 500).drop 500 := by
      rw [List.drop_drop]
    rw [t3, d, List.take_append_drop, List.take_append_drop]
  have step1 : paginate_api_response (pagedServer L 500 1200) none =
      paginateLoop (pagedServer L 500 1200) none 1200 2 [1] (L.take 500) := by
    simp only [paginate_api_response, hs1]
    norm_num [maxPagesHit, len1]
    intro hL
    rw [hL] at h
    simp at h
  have ne2 : ¬((List.take 500 (List.drop 500 L)).isEmpty = true) := by
    rw [List.isEmpty_iff]
    intro hnil
    rw [hnil] at len2
    simp at len2
  have step2 : paginateLoop (pagedServer L 500 1200) none 1200 2 [1] (L.take 500) =
      paginateLoop (pagedServer L 500 1200) none 1200 3 [1, 2]
        (L.take 500 ++ List.take 500 (List.drop 500 L)) := by
    rw [paginateLoop, hs2, if_neg (by decide), if_neg ?c2]
    · norm_num
    case c2 =>
      simp only [List.length_append, len1, len2, ne2]
      norm_num
  have step3 : paginateLoop (pagedServer L 500 1200) none 1200 3 [1, 2]
      (L.take 500 ++ List.take 500 (List.drop 500 L)) =
      ([1, 2] ++ [3],
        (L.take 500 ++ List.take 500 (List.drop 500 L)) ++
          List.take 500 (List.drop 1000 L)) := by
    rw [paginateLoop, hs3, if_neg (by decide), if_pos ?c3]
    case c3 =>
      simp only [List.length_append, len1, len2, len3]
      norm_num
  have hmain : paginate_api_response (pagedServer L 500 1200) none = ([1, 2, 3], L) := by
    rw [step1, step2, step3]
    simp [List.append_assoc, hfull]
  refine ⟨hmain, ?_, ?_, ?_, fun hnd => by rw [hmain]; exact hnd⟩
  · rw [hs1]; exact len1
  · rw [hs2]; exact len2
  · rw [hs3]; exact len3

/-- C5 witness: the paginator property at the concrete item sequence
0..1199, whose elements are distinct. -/
theorem paginate_1200_in_pages_of_500_witness :
    paginate_api_response (pagedServer (List.range 1200) 500 1200) none =
      ([1, 2, 3], List.range 1200) ∧
    (paginate_api_response (pagedServer (List.range 1200) 500 1200) none).2.Nodup :=
  ⟨(paginate_1200_in_pages_of_500 (List.range 1200) (by simp)).1,
   (paginate_1200_in_pages_of_500 (List.range 1200) (by simp)).2.2.2.2
     (List.nodup_range 1200)⟩
